import Mathlib

/-!
Shallow embedding of the RustV RV64 emulator core (files under `src/src/`):
the CSR file (`csr.rs`), the trap taxonomy (`exept.rs`), DRAM (`dram.rs`),
the bus and its devices (`bus.rs`, `interrupt/clint.rs`, `interrupt/plic.rs`,
`device/uart.rs`), and the interpreter (`cpu/cpu.rs`).

Conventions: `u64` values are `Nat` below `2 ^ 64`; wrapping arithmetic is
explicit `% 2 ^ 64`; signed casts go through `Int` in two's complement.
Rust functions that can panic are embedded with `Option` (`none` = abort);
fallible operations return `Except Exept` results.  State mutation is
explicit state passing: a Rust method on `&mut self` becomes a function
that also returns the updated structure.
-/

/-- Truncation to 64 bits, the effect of `u64` wrapping operations. -/
def wrap64 (n : Nat) : Nat := n % 2 ^ 64

/-- Wrapping 64-bit addition (`u64::wrapping_add`, and release-mode `+`). -/
def wadd (a b : Nat) : Nat := (a + b) % 2 ^ 64

/-- Wrapping 64-bit subtraction (`u64::wrapping_sub`). -/
def wsub (a b : Nat) : Nat := (a % 2 ^ 64 + (2 ^ 64 - b % 2 ^ 64)) % 2 ^ 64

/-- Wrapping 64-bit multiplication (`u64::wrapping_mul`). -/
def wmul (a b : Nat) : Nat := (a * b) % 2 ^ 64

/-- `u64::wrapping_shl`: the shift amount is taken mod 64. -/
def shl64 (a s : Nat) : Nat := ((a % 2 ^ 64) <<< (s % 64)) % 2 ^ 64

/-- `u64::wrapping_shr`: the shift amount is taken mod 64. -/
def shr64 (a s : Nat) : Nat := (a % 2 ^ 64) >>> (s % 64)

/-- `u32::wrapping_shl` on the low 32 bits of a value. -/
def shl32 (a s : Nat) : Nat := ((a % 2 ^ 32) <<< (s % 32)) % 2 ^ 32

/-- `u32::wrapping_shr` on the low 32 bits of a value. -/
def shr32 (a s : Nat) : Nat := (a % 2 ^ 32) >>> (s % 32)

/-- Bitwise complement on 64 bits (`!x` on a `u64`). -/
def not64 (x : Nat) : Nat := (2 ^ 64 - 1) ^^^ (x % 2 ^ 64)

/-- Bitwise complement on 8 bits (`!x` on a `u8`). -/
def not8 (x : Nat) : Nat := 255 ^^^ (x % 256)

/-- Reading a `u64` bit pattern as an `i8` (`as i8`). -/
def toI8 (v : Nat) : Int := if v % 2 ^ 8 < 2 ^ 7 then (v % 2 ^ 8 : Nat) else (v % 2 ^ 8 : Nat) - 2 ^ 8

/-- Reading a `u64` bit pattern as an `i16` (`as i16`). -/
def toI16 (v : Nat) : Int :=
  if v % 2 ^ 16 < 2 ^ 15 then (v % 2 ^ 16 : Nat) else (v % 2 ^ 16 : Nat) - 2 ^ 16

/-- Reading a `u64` bit pattern as an `i32` (`as i32`). -/
def toI32 (v : Nat) : Int :=
  if v % 2 ^ 32 < 2 ^ 31 then (v % 2 ^ 32 : Nat) else (v % 2 ^ 32 : Nat) - 2 ^ 32

/-- Reading a `u64` bit pattern as an `i64` (`as i64`). -/
def toI64 (v : Nat) : Int :=
  if v % 2 ^ 64 < 2 ^ 63 then (v % 2 ^ 64 : Nat) else (v % 2 ^ 64 : Nat) - 2 ^ 64

/-- Two's-complement encoding of an integer as a `u64` (`as u64`, wrapping). -/
def ofInt64 (z : Int) : Nat := (Int.emod z (2 ^ 64)).toNat

/-- Wrapping an integer into the `i32` range (the result of `i32` wrapping ops). -/
def wrapI32 (z : Int) : Int :=
  let m := Int.emod z (2 ^ 32)
  if m < 2 ^ 31 then m else m - 2 ^ 32

/-- Arithmetic (sign-propagating) right shift of a signed value: floor division. -/
def arithShr (z : Int) (k : Nat) : Int := Int.fdiv z (2 ^ k)

/-- `sign_extend!(i8, v)` from `cpu/utils.rs`: `v as i8 as i64 as u64`. -/
def sx8 (v : Nat) : Nat := ofInt64 (toI8 v)

/-- `sign_extend!(i16, v)` from `cpu/utils.rs`: `v as i16 as i64 as u64`. -/
def sx16 (v : Nat) : Nat := ofInt64 (toI16 v)

/-- `sign_extend!(i32, v)` from `cpu/utils.rs`: `v as i32 as i64 as u64`. -/
def sx32 (v : Nat) : Nat := ofInt64 (toI32 v)

/-- The trap taxonomy of `exept.rs` (there named `Exception`); each variant
carries its `value()` payload. -/
inductive Exept : Type
  | instructionAddrMisaligned (addr : Nat)
  | instructionAccessFault (addr : Nat)
  | illegalInstruction (inst : Nat)
  | breakpoint (pc : Nat)
  | loadAccessMisaligned (addr : Nat)
  | loadAccessFault (addr : Nat)
  | storeAMOAddrMisaligned (addr : Nat)
  | storeAMOAccessFault (addr : Nat)
  | environmentCallFromUMode (pc : Nat)
  | environmentCallFromSMode (pc : Nat)
  | environmentCallFromMMode (pc : Nat)
  | instructionPageFault (addr : Nat)
  | loadPageFault (addr : Nat)
  | storeAMOPageFault (addr : Nat)
  deriving DecidableEq, Repr

/-- `Exception::value` of `exept.rs`: the carried fault value. -/
def Exept.value : Exept → Nat
  | .instructionAddrMisaligned a => a
  | .instructionAccessFault a => a
  | .illegalInstruction i => i
  | .breakpoint p => p
  | .loadAccessMisaligned a => a
  | .loadAccessFault a => a
  | .storeAMOAddrMisaligned a => a
  | .storeAMOAccessFault a => a
  | .environmentCallFromUMode p => p
  | .environmentCallFromSMode p => p
  | .environmentCallFromMMode p => p
  | .instructionPageFault a => a
  | .loadPageFault a => a
  | .storeAMOPageFault a => a

/-- `Exception::code` of `exept.rs`: the RISC-V cause code. -/
def Exept.code : Exept → Nat
  | .instructionAddrMisaligned _ => 0
  | .instructionAccessFault _ => 1
  | .illegalInstruction _ => 2
  | .breakpoint _ => 3
  | .loadAccessMisaligned _ => 4
  | .loadAccessFault _ => 5
  | .storeAMOAddrMisaligned _ => 6
  | .storeAMOAccessFault _ => 7
  | .environmentCallFromUMode _ => 8
  | .environmentCallFromSMode _ => 9
  | .environmentCallFromMMode _ => 11
  | .instructionPageFault _ => 12
  | .loadPageFault _ => 13
  | .storeAMOPageFault _ => 14

/-- `Exception::is_fatal` of `exept.rs`. -/
def Exept.is_fatal : Exept → Bool
  | .instructionAddrMisaligned _ => true
  | .instructionAccessFault _ => true
  | .loadAccessFault _ => true
  | .storeAMOAddrMisaligned _ => true
  | .storeAMOAccessFault _ => true
  | .illegalInstruction _ => true
  | _ => false

/-- Modelled from the spec: `src/src/interrupt/interrupt.rs` is not in the
snapshot; `cpu.rs` imports the `Interrupt` enum and `Interrupt::code` from it.
Spec §4.10 pairs {MEIP, MSIP, MTIP, SEIP, SSIP, STIP} with the MIP bit masks
of `csr.rs` (bits 11, 3, 7, 9, 1, 5), which are the standard cause codes. -/
inductive Interrupt : Type
  | supervisorSoftwareInterrupt
  | machineSoftwareInterrupt
  | supervisorTimerInterrupt
  | machineTimerInterrupt
  | supervisorExternalInterrupt
  | machineExternalInterrupt
  deriving DecidableEq, Repr

/-- Modelled from the spec: the interrupt cause codes matching the MIP bit
positions `MASK_SSIP .. MASK_MEIP` of `csr.rs`. -/
def Interrupt.code : Interrupt → Nat
  | .supervisorSoftwareInterrupt => 1
  | .machineSoftwareInterrupt => 3
  | .supervisorTimerInterrupt => 5
  | .machineTimerInterrupt => 7
  | .supervisorExternalInterrupt => 9
  | .machineExternalInterrupt => 11

/-! CSR addresses and masks from `csr.rs`. -/

def MHARTID : Nat := 0xf14
def MSTATUS : Nat := 0x300
def MEDELEG : Nat := 0x302
def MIDELEG : Nat := 0x303
def MIE : Nat := 0x304
def MTVEC : Nat := 0x305
def MCOUNTEREN : Nat := 0x306
def MSCRATCH : Nat := 0x340
def MEPC : Nat := 0x341
def MCAUSE : Nat := 0x342
def MTVAL : Nat := 0x343
def MIP : Nat := 0x344
def SSTATUS : Nat := 0x100
def SIE : Nat := 0x104
def STVEC : Nat := 0x105
def SSCRATCH : Nat := 0x140
def SEPC : Nat := 0x141
def SCAUSE : Nat := 0x142
def STVAL : Nat := 0x143
def SIP : Nat := 0x144
def SATP : Nat := 0x180

def MASK_PPN : Nat := (1 <<< 44) - 1
def MASK_SIE : Nat := 1 <<< 1
def MASK_MIE : Nat := 1 <<< 3
def MASK_SPIE : Nat := 1 <<< 5
def MASK_UBE : Nat := 1 <<< 6
def MASK_MPIE : Nat := 1 <<< 7
def MASK_SPP : Nat := 1 <<< 8
def MASK_VS : Nat := 0b11 <<< 9
def MASK_MPP : Nat := 0b11 <<< 11
def MASK_FS : Nat := 0b11 <<< 13
def MASK_XS : Nat := 0b11 <<< 15
def MASK_MPRV : Nat := 1 <<< 17
def MASK_SUM : Nat := 1 <<< 18
def MASK_MXR : Nat := 1 <<< 19
def MASK_TVM : Nat := 1 <<< 20
def MASK_TW : Nat := 1 <<< 21
def MASK_TSR : Nat := 1 <<< 22
def MASK_UXL : Nat := 0b11 <<< 32
def MASK_SXL : Nat := 0b11 <<< 34
def MASK_SBE : Nat := 1 <<< 36
def MASK_MBE : Nat := 1 <<< 37
def MASK_SD : Nat := 1 <<< 63

def MASK_SSTATUS : Nat :=
  MASK_SIE ||| MASK_SPIE ||| MASK_UBE ||| MASK_SPP ||| MASK_FS ||| MASK_XS |||
  MASK_SUM ||| MASK_MXR ||| MASK_UXL ||| MASK_SD

def MASK_SSIP : Nat := 1 <<< 1
def MASK_MSIP : Nat := 1 <<< 3
def MASK_STIP : Nat := 1 <<< 5
def MASK_MTIP : Nat := 1 <<< 7
def MASK_SEIP : Nat := 1 <<< 9
def MASK_MEIP : Nat := 1 <<< 11

/-- The CSR file of `csr.rs`: a flat map from CSR address to 64-bit value. -/
def Csr : Type := Nat → Nat

/-- `Csr::load` of `csr.rs`, with the SIE/SIP/SSTATUS shadow reads. -/
def Csr.load (c : Csr) (addr : Nat) : Nat :=
  if addr = SIE then c MIE &&& c MIDELEG
  else if addr = SIP then c MIP &&& c MIDELEG
  else if addr = SSTATUS then c MSTATUS &&& MASK_SSTATUS
  else c addr

/-- `Csr::store` of `csr.rs`.  NOTE: in the SIP arm the source keeps the
unmasked bits of `csrs[MIE]`, not of `csrs[MIP]` (`csr.rs:30`); this is
embedded as written. -/
def Csr.store (c : Csr) (addr value : Nat) : Csr :=
  if addr = SIE then
    fun x => if x = MIE then (c MIE &&& not64 (c MIDELEG)) ||| (value &&& c MIDELEG) else c x
  else if addr = SIP then
    fun x => if x = MIP then (c MIE &&& not64 (c MIDELEG)) ||| (value &&& c MIDELEG) else c x
  else if addr = SSTATUS then
    fun x =>
      if x = MSTATUS then (c MSTATUS &&& not64 MASK_SSTATUS) ||| (value &&& MASK_SSTATUS) else c x
  else fun x => if x = addr then value else c x

/-- `Csr::is_medelegated`: bit `cause` of MEDELEG (`wrapping_shr` masks the
shift amount mod 64). -/
def Csr.is_medelegated (c : Csr) (cause : Nat) : Bool :=
  ((c MEDELEG >>> (cause % 64)) &&& 1) == 1

/-- `Csr::is_midelegated`: bit `cause` of MIDELEG. -/
def Csr.is_midelegated (c : Csr) (cause : Nat) : Bool :=
  ((c MIDELEG >>> (cause % 64)) &&& 1) == 1

/-! Address-map constants.  DRAM and UART values are from `param.rs`; the
CLINT/PLIC/VIRTIO constants are referenced by `bus.rs`, `clint.rs` and
`plic.rs` but their definitions are not in the snapshot. -/

def DRAM_SIZE : Nat := 1024 * 1024 * 128
def DRAM_BASE : Nat := 0x80000000
def DRAM_END : Nat := DRAM_SIZE + DRAM_BASE - 1
def UART_BASE : Nat := 0x10000000
def UART_SIZE : Nat := 0x100
def UART_END : Nat := UART_BASE + UART_SIZE - 1
def UART_IRQ : Nat := 10
def UART_RHR : Nat := 0
def UART_THR : Nat := 0
def UART_LCR : Nat := 3
def UART_LSR : Nat := 5
def MASK_UART_LSR_RX : Nat := 1
def MASK_UART_LSR_TX : Nat := 1 <<< 5

/-- Modelled from the spec: §3 places the CLINT at 0x0200_0000 with an
implementation-defined end; the standard window is 0x10000 bytes. -/
def CLINT_BASE : Nat := 0x2000000
def CLINT_END : Nat := CLINT_BASE + 0x10000

/-- Modelled from the spec: §4.3, the conventional mtimecmp/mtime offsets. -/
def CLINT_MTIMECMP : Nat := CLINT_BASE + 0x4000
def CLINT_MTIME : Nat := CLINT_BASE + 0xbff8

/-- Modelled from the spec: §3 places the PLIC at 0x0C00_0000 with an
implementation-defined end. -/
def PLIC_BASE : Nat := 0xc000000
def PLIC_END : Nat := PLIC_BASE + 0x4000000

/-- Modelled from the spec: §4.4, the pending/senable/spriority/sclaim
register offsets conventional for this device. -/
def PLIC_PENDING : Nat := PLIC_BASE + 0x1000
def PLIC_SENABLE : Nat := PLIC_BASE + 0x2000
def PLIC_SPRIORITY : Nat := PLIC_BASE + 0x201000
def PLIC_SCLAIM : Nat := PLIC_BASE + 0x201004

/-- Modelled from the spec: §3 places the virtio-mmio window at 0x1000_1000. -/
def VIRTIO_BASE : Nat := 0x10001000
def VIRTIO_END : Nat := VIRTIO_BASE + 0x1000

/-- Modelled from the spec: §4.5/§4.8. -/
def PAGE_SIZE : Nat := 4096
def VIRTIO_IRQ : Nat := 1

/-- DRAM of `dram.rs`: a byte vector. -/
structure Dram : Type where
  dram : List Nat
  deriving Repr

/-- The read loop of `Dram::load_little_endian`: `code |= dram[index+i] << (i*8)`
for `i` in `1..bytes` (`k` counts the remaining iterations); an out-of-range
index is a Rust panic, hence `none`. -/
def Dram.lleGo (l : List Nat) (index code i : Nat) : Nat → Option Nat
  | 0 => some code
  | k + 1 => do
    let b ← l.get? (index + i)
    Dram.lleGo l index (code ||| (b <<< (i * 8))) (i + 1) k

/-- `Dram::load_little_endian` of `dram.rs`. -/
def Dram.load_little_endian (d : Dram) (index bytes : Nat) : Option Nat := do
  let c ← d.dram.get? index
  Dram.lleGo d.dram index c 1 (bytes - 1)

/-- The write loop of `Dram::store_little_endian`: `dram[index+i] = (value >> i*8) as u8`
for `i` in `0..bytes`. -/
def Dram.sleGo (l : List Nat) (index value i : Nat) : Nat → Option (List Nat)
  | 0 => some l
  | k + 1 =>
    if index + i < l.length then
      Dram.sleGo (l.set (index + i) ((value >>> (i * 8)) % 256)) index value (i + 1) k
    else none

/-- `Dram::store_little_endian` of `dram.rs`. -/
def Dram.store_little_endian (d : Dram) (index bytes value : Nat) : Option Dram :=
  (Dram.sleGo d.dram index value 0 bytes).map Dram.mk

/-- `Dram::load` of `dram.rs`.  The source accepts sizes {8, 16, 24, 32} and
reports an illegal size as `load_access_fault(size)` — the fault carries the
size, not the address.  An address below `DRAM_BASE` or an out-of-range
offset aborts (Rust subtraction overflow / index panic), hence `none`. -/
def Dram.load (d : Dram) (addr size : Nat) : Option (Except Exept Nat) :=
  if ¬ (size = 8 ∨ size = 16 ∨ size = 24 ∨ size = 32) then
    some (Except.error (Exept.loadAccessFault size))
  else if addr < DRAM_BASE then none
  else (d.load_little_endian (addr - DRAM_BASE) (size / 8)).map Except.ok

/-- `Dram::store` of `dram.rs`; same size set and size-carrying fault as
`Dram::load`. -/
def Dram.store (d : Dram) (addr size value : Nat) : Option (Except Exept Unit × Dram) :=
  if ¬ (size = 8 ∨ size = 16 ∨ size = 24 ∨ size = 32) then
    some (Except.error (Exept.storeAMOAccessFault size), d)
  else if addr < DRAM_BASE then none
  else (d.store_little_endian (addr - DRAM_BASE) (size / 8) value).map
    (fun d' => (Except.ok ⟨⟩, d'))

/-- CLINT of `interrupt/clint.rs`. -/
structure Clint : Type where
  mtime : Nat
  mtimecmp : Nat
  deriving DecidableEq, Repr

/-- `Clint::load` of `interrupt/clint.rs`. -/
def Clint.load (c : Clint) (addr size : Nat) : Except Exept Nat :=
  if size ≠ 64 then Except.error (Exept.loadAccessFault addr)
  else if addr = CLINT_MTIME then Except.ok c.mtime
  else if addr = CLINT_MTIMECMP then Except.ok c.mtimecmp
  else Except.ok 0

/-- `Clint::store` of `interrupt/clint.rs`; the updated device is returned
alongside the result. -/
def Clint.store (c : Clint) (addr size value : Nat) : Except Exept Unit × Clint :=
  if size ≠ 64 then (Except.error (Exept.storeAMOAccessFault addr), c)
  else if addr = CLINT_MTIME then (Except.ok ⟨⟩, { c with mtime := value })
  else if addr = CLINT_MTIMECMP then (Except.ok ⟨⟩, { c with mtimecmp := value })
  else (Except.ok ⟨⟩, c)

/-- PLIC of `interrupt/plic.rs`. -/
structure Plic : Type where
  pending : Nat
  senable : Nat
  spriority : Nat
  sclaim : Nat
  deriving DecidableEq, Repr

/-- `Plic::load` of `interrupt/plic.rs`. -/
def Plic.load (p : Plic) (addr size : Nat) : Except Exept Nat :=
  if size ≠ 32 then Except.error (Exept.loadAccessFault addr)
  else if addr = PLIC_PENDING then Except.ok p.pending
  else if addr = PLIC_SENABLE then Except.ok p.senable
  else if addr = PLIC_SPRIORITY then Except.ok p.spriority
  else if addr = PLIC_SCLAIM then Except.ok p.sclaim
  else Except.ok 0

/-- `Plic::store` of `interrupt/plic.rs`. -/
def Plic.store (p : Plic) (addr size value : Nat) : Except Exept Unit × Plic :=
  if size ≠ 32 then (Except.error (Exept.storeAMOAccessFault addr), p)
  else if addr = PLIC_PENDING then (Except.ok ⟨⟩, { p with pending := value })
  else if addr = PLIC_SENABLE then (Except.ok ⟨⟩, { p with senable := value })
  else if addr = PLIC_SPRIORITY then (Except.ok ⟨⟩, { p with spriority := value })
  else if addr = PLIC_SCLAIM then (Except.ok ⟨⟩, { p with sclaim := value })
  else (Except.ok ⟨⟩, p)

/-- UART of `device/uart.rs`: the 256-byte register window plus the interrupt
flag.  The host-side reader thread, mutex and condition variable are not
guest-visible state and are outside this embedding. -/
structure Uart : Type where
  regs : Nat → Nat
  interrupt : Bool

/-- `Uart::load` of `device/uart.rs`: a read of RHR clears `LSR.RX`; the
`cvar.notify_one()` only wakes the host thread. -/
def Uart.load (u : Uart) (addr size : Nat) : Except Exept Nat × Uart :=
  if size ≠ 8 then (Except.error (Exept.loadAccessFault addr), u)
  else
    let index := addr - UART_BASE
    if index = UART_RHR then
      let u' : Uart :=
        { u with regs := fun x =>
            if x = UART_LSR then u.regs UART_LSR &&& not8 MASK_UART_LSR_RX else u.regs x }
      (Except.ok (u'.regs UART_RHR), u')
    else (Except.ok (u.regs index), u)

/-- `Uart::store` of `device/uart.rs`: a write to THR goes to the host's
standard output and leaves the register window unchanged. -/
def Uart.store (u : Uart) (addr size value : Nat) : Except Exept Unit × Uart :=
  if size ≠ 8 then (Except.error (Exept.storeAMOAccessFault addr), u)
  else
    let index := addr - UART_BASE
    if index = UART_THR then (Except.ok ⟨⟩, u)
    else (Except.ok ⟨⟩, { u with regs := fun x => if x = index then value % 256 else u.regs x })

/-- Modelled from the spec: `src/src/device/virtio/virtio.rs` is not in the
snapshot.  Per §4.5 the device exposes a virtio-mmio register file behind the
bus window; it is modelled as a plain word store whose accesses always
succeed.  None of the claims settled below depends on its internals. -/
structure VirtioBlock : Type where
  regs : Nat → Nat

/-- Modelled from the spec: a virtio-mmio register read. -/
def VirtioBlock.load (v : VirtioBlock) (addr size : Nat) : Except Exept Nat × VirtioBlock :=
  (Except.ok (v.regs addr), v)

/-- Modelled from the spec: a virtio-mmio register write. -/
def VirtioBlock.store (v : VirtioBlock) (addr size value : Nat) :
    Except Exept Unit × VirtioBlock :=
  (Except.ok ⟨⟩, { v with regs := fun x => if x = addr then value else v.regs x })

/-- The bus of `bus.rs`. -/
structure Bus : Type where
  dram : Dram
  clint : Clint
  plic : Plic
  uart : Uart
  virtio_blk : VirtioBlock

/-- `Bus::load` of `bus.rs`.  The match arms use inclusive ranges for
CLINT/PLIC/VIRTIO and half-open ranges for DRAM, UART and the low window;
the final arm is a `LoadAccessFault` carrying the address. -/
def Bus.load (b : Bus) (addr size : Nat) : Option (Except Exept Nat × Bus) :=
  if CLINT_BASE ≤ addr ∧ addr ≤ CLINT_END then
    some (b.clint.load addr size, b)
  else if PLIC_BASE ≤ addr ∧ addr ≤ PLIC_END then
    some (b.plic.load addr size, b)
  else if VIRTIO_BASE ≤ addr ∧ addr ≤ VIRTIO_END then
    some ((b.virtio_blk.load addr size).1, { b with virtio_blk := (b.virtio_blk.load addr size).2 })
  else if DRAM_BASE ≤ addr ∧ addr < DRAM_END then
    (b.dram.load addr size).map (fun r => (r, b))
  else if UART_BASE ≤ addr ∧ addr < UART_END then
    some ((b.uart.load addr size).1, { b with uart := (b.uart.load addr size).2 })
  else if 0x1000 ≤ addr ∧ addr < 0xFFFF then
    (b.dram.load (addr + DRAM_BASE) size).map (fun r => (r, b))
  else some (Except.error (Exept.loadAccessFault addr), b)

/-- `Bus::store` of `bus.rs`. -/
def Bus.store (b : Bus) (addr size value : Nat) : Option (Except Exept Unit × Bus) :=
  if CLINT_BASE ≤ addr ∧ addr ≤ CLINT_END then
    some ((b.clint.store addr size value).1, { b with clint := (b.clint.store addr size value).2 })
  else if PLIC_BASE ≤ addr ∧ addr ≤ PLIC_END then
    some ((b.plic.store addr size value).1, { b with plic := (b.plic.store addr size value).2 })
  else if VIRTIO_BASE ≤ addr ∧ addr ≤ VIRTIO_END then
    some ((b.virtio_blk.store addr size value).1,
      { b with virtio_blk := (b.virtio_blk.store addr size value).2 })
  else if DRAM_BASE ≤ addr ∧ addr < DRAM_END then
    (b.dram.store addr size value).map (fun rd => (rd.1, { b with dram := rd.2 }))
  else if UART_BASE ≤ addr ∧ addr < UART_END then
    some ((b.uart.store addr size value).1, { b with uart := (b.uart.store addr size value).2 })
  else if 0x1000 ≤ addr ∧ addr < 0xFFFF then
    (b.dram.store (addr + DRAM_BASE) size value).map (fun rd => (rd.1, { b with dram := rd.2 }))
  else some (Except.error (Exept.storeAMOAccessFault addr), b)

/-! The interpreter of `cpu/cpu.rs`. -/

/-- Privilege modes (`type Mode = u64` in `cpu/cpu.rs`). -/
def User : Nat := 0b00
def Supervisor : Nat := 0b01
def Machine : Nat := 0b11

/-- `AccessType` of `cpu/cpu.rs`. -/
inductive AccessType : Type
  | Instruction
  | Load
  | Store
  deriving DecidableEq, Repr

/-- Hart state (`struct Cpu` of `cpu/cpu.rs`). -/
structure Cpu : Type where
  regs : Nat → Nat
  pc : Nat
  mode : Nat
  bus : Bus
  csr : Csr
  enable_paging : Bool
  page_table : Nat

/-- State-passing embedding of a fallible, possibly panicking computation on
state `σ`: `none` is a Rust panic, `Except.error` a propagating trap (`?`),
and mutations made before an error are kept, as with `&mut self`. -/
def EmuM (σ α : Type) : Type := σ → Option (σ × Except Exept α)

/-- Monadic bind for `EmuM`: sequencing with `?`-style error propagation. -/
def EmuM.bind {σ α β : Type} (m : EmuM σ α) (f : α → EmuM σ β) : EmuM σ β := fun s =>
  match m s with
  | none => none
  | some (s', Except.error e) => some (s', Except.error e)
  | some (s', Except.ok a) => f a s'

/-- Monadic pure for `EmuM`. -/
def EmuM.pure {σ α : Type} (a : α) : EmuM σ α := fun s => some (s, Except.ok a)

instance : Monad (EmuM σ) where
  pure := EmuM.pure
  bind := EmuM.bind

/-- Raise a trap (Rust `return Err(e)` / `Err(e)?`). -/
def throwE {σ α : Type} (e : Exept) : EmuM σ α := fun s => some (s, Except.error e)

/-- Abort (Rust `unreachable!()` or another panic). -/
def diverge {σ α : Type} : EmuM σ α := fun _ => none

/-- Read the current state. -/
def getS {σ : Type} : EmuM σ σ := fun s => some (s, Except.ok s)

/-- Replace the current state. -/
def setS {σ : Type} (s' : σ) : EmuM σ Unit := fun _ => some (s', Except.ok ⟨⟩)

/-- Update the current state. -/
def modifyS {σ : Type} (f : σ → σ) : EmuM σ Unit := fun s => some (f s, Except.ok ⟨⟩)

/-- `self.bus.load(addr, size)` lifted to the hart state. -/
def busLoadM (addr size : Nat) : EmuM Cpu Nat := fun c =>
  match Bus.load c.bus addr size with
  | none => none
  | some (r, b') => some ({ c with bus := b' }, r)

/-- `self.bus.store(addr, size, value)` lifted to the hart state. -/
def busStoreM (addr size value : Nat) : EmuM Cpu Unit := fun c =>
  match Bus.store c.bus addr size value with
  | none => none
  | some (r, b') => some ({ c with bus := b' }, r)

/-- The page-fault constructor matching the access type (`translate`'s three
error arms). -/
def pageFaultFor (acc : AccessType) (addr : Nat) : Exept :=
  match acc with
  | .Instruction => Exept.instructionPageFault addr
  | .Load => Exept.loadPageFault addr
  | .Store => Exept.storeAMOPageFault addr

/-- One classification step of the walk loop in `Cpu::translate`. -/
inductive PteStep : Type
  | fault
  | leaf (pte : Nat)
  | descend (a' : Nat)

/-- The body of the walk loop of `Cpu::translate`: check V/R/W/X, detect a
leaf, or compute the next level's base `a = ((pte >> 10) & mask44) * PAGE_SIZE`. -/
def classifyPte (pte : Nat) : PteStep :=
  let v := pte &&& 1
  let r := (pte >>> 1) &&& 1
  let w := (pte >>> 2) &&& 1
  let x := (pte >>> 3) &&& 1
  if v = 0 ∨ (r = 0 ∧ w = 1) then PteStep.fault
  else if r = 1 ∨ x = 1 then PteStep.leaf pte
  else PteStep.descend (((pte >>> 10) &&& 0xfffffffffff) * PAGE_SIZE)

/-- The walk loop of `Cpu::translate`, by level `i` (source: `i` counts down
from `levels - 1 = 2` and faults when it would go below zero). -/
def ptWalk (acc : AccessType) (addr : Nat) (vpn : Nat → Nat) : Nat → Nat → EmuM Cpu (Nat × Nat)
  | 0, a => do
    let pte ← busLoadM (a + vpn 0 * 8) 64
    match classifyPte pte with
    | PteStep.fault => throwE (pageFaultFor acc addr)
    | PteStep.leaf p => Pure.pure (0, p)
    | PteStep.descend _ => throwE (pageFaultFor acc addr)
  | i + 1, a => do
    let pte ← busLoadM (a + vpn (i + 1) * 8) 64
    match classifyPte pte with
    | PteStep.fault => throwE (pageFaultFor acc addr)
    | PteStep.leaf p => Pure.pure (i + 1, p)
    | PteStep.descend a' => ptWalk acc addr vpn i a'

/-- `Cpu::translate` of `cpu/cpu.rs`. -/
def Cpu.translate (addr : Nat) (acc : AccessType) : EmuM Cpu Nat := do
  let c ← getS
  if ¬ c.enable_paging then
    Pure.pure addr
  else
    let vpn : Nat → Nat := fun i => (addr >>> (12 + 9 * i)) &&& 0x1ff
    let (i, pte) ← ptWalk acc addr vpn 2 c.page_table
    let ppn : Nat → Nat := fun j =>
      if j = 0 then (pte >>> 10) &&& 0x1ff
      else if j = 1 then (pte >>> 19) &&& 0x1ff
      else (pte >>> 28) &&& 0x3ffffff
    let offset := addr &&& 0xfff
    if i = 0 then
      Pure.pure ((((pte >>> 10) &&& 0xfffffffffff) <<< 12) ||| offset)
    else if i = 1 then
      Pure.pure ((ppn 2 <<< 30) ||| (ppn 1 <<< 21) ||| (vpn 0 <<< 12) ||| offset)
    else if i = 2 then
      Pure.pure ((ppn 2 <<< 30) ||| (vpn 1 <<< 21) ||| (vpn 0 <<< 12) ||| offset)
    else throwE (pageFaultFor acc addr)

/-- `Cpu::load` of `cpu/cpu.rs`. -/
def Cpu.load (addr size : Nat) : EmuM Cpu Nat := do
  let pAddr ← Cpu.translate addr AccessType.Load
  busLoadM pAddr size

/-- `Cpu::store` of `cpu/cpu.rs`. -/
def Cpu.store (addr size value : Nat) : EmuM Cpu Unit := do
  let pAddr ← Cpu.translate addr AccessType.Store
  busStoreM pAddr size value

/-- `Cpu::fetch` of `cpu/cpu.rs`: a 32-bit bus read at the translated pc,
with any bus error re-raised as `InstructionAccessFault(pc)`. -/
def Cpu.fetch : EmuM Cpu Nat := do
  let c ← getS
  let pPc ← Cpu.translate c.pc AccessType.Instruction
  fun c' =>
    match Bus.load c'.bus pPc 32 with
    | none => none
    | some (Except.ok inst, b') => some ({ c' with bus := b' }, Except.ok inst)
    | some (Except.error _, b') =>
      some ({ c' with bus := b' }, Except.error (Exept.instructionAccessFault c.pc))

/-! Decode helpers of `cpu/cpu.rs` (`decode_r` operates on `inst as u32`). -/

def I_IMMEDIATE : Nat := 0xfff00000
def U_IMMEDIATE : Nat := 0xfffff000

/-- Field `funct7` of `decode_r(inst as u32)`: `(inst >> 25) & 0x7f`. -/
def funct7Of (inst : Nat) : Nat := ((inst % 2 ^ 32) >>> 25) &&& 0x7f

/-- Field `rs2` of `decode_r(inst as u32)`: `(inst >> 20) & 0x1f`. -/
def rs2Of (inst : Nat) : Nat := ((inst % 2 ^ 32) >>> 20) &&& 0x1f

/-- Field `rs1` of `decode_r(inst as u32)`: `(inst >> 15) & 0x1f`. -/
def rs1Of (inst : Nat) : Nat := ((inst % 2 ^ 32) >>> 15) &&& 0x1f

/-- Field `funct3` of `decode_r(inst as u32)`: `(inst >> 12) & 0x7`. -/
def funct3Of (inst : Nat) : Nat := ((inst % 2 ^ 32) >>> 12) &&& 0x7

/-- Field `rd` of `decode_r(inst as u32)`: `(inst >> 7) & 0x1f`. -/
def rdOf (inst : Nat) : Nat := ((inst % 2 ^ 32) >>> 7) &&& 0x1f

/-- Field `opcode` of `decode_r(inst as u32)`: `inst & 0x7f`. -/
def opcodeOf (inst : Nat) : Nat := (inst % 2 ^ 32) &&& 0x7f

/-- `get_shamt_5` of `cpu/cpu.rs`. -/
def get_shamt_5 (imm : Nat) : Nat := imm &&& 0x1f

/-- `get_shamt_6` of `cpu/cpu.rs`. -/
def get_shamt_6 (imm : Nat) : Nat := imm &&& 0x3f

/-- `get_u_imm` of `cpu/cpu.rs`: `(inst & U_IMMEDIATE) as i32 as i64 as u64`. -/
def get_u_imm (inst : Nat) : Nat := ofInt64 (toI32 (inst &&& U_IMMEDIATE))

/-- `get_i_imm` of `cpu/cpu.rs`: `((((inst & I_IMMEDIATE) as i32) as i64) >> 20) as u64`. -/
def get_i_imm (inst : Nat) : Nat := ofInt64 (arithShr (toI32 (inst &&& I_IMMEDIATE)) 20)

/-- `get_j_imm` of `cpu/cpu.rs`. -/
def get_j_imm (inst : Nat) : Nat :=
  ofInt64 (arithShr (toI32 (inst &&& 0x80000000)) 11) ||| (inst &&& 0xff000) |||
    ((inst >>> 9) &&& 0x800) ||| ((inst >>> 20) &&& 0x7fe)

/-- `get_b_imm` of `cpu/cpu.rs`. -/
def get_b_imm (inst : Nat) : Nat :=
  ofInt64 (arithShr (toI32 (inst &&& 0x80000000)) 19) ||| ((inst &&& 0x80) <<< 4) |||
    ((inst >>> 20) &&& 0x7e0) ||| ((inst >>> 7) &&& 0x1e)

/-- `get_s_imm` of `cpu/cpu.rs`. -/
def get_s_imm (inst : Nat) : Nat :=
  ofInt64 (arithShr (toI32 (inst &&& 0xfe000000)) 20) ||| ((inst >>> 7) &&& 0x1f)

/-- `self.regs[i] = v` on the register file. -/
def setReg (regs : Nat → Nat) (i v : Nat) : Nat → Nat := fun x => if x = i then v else regs x

/-- Write `v` to `rd` and fall through to the default next pc (`None` means
the arm did not `return` a new pc). -/
def writeRd (rd v : Nat) : EmuM Cpu (Option Nat) := do
  modifyS (fun c => { c with regs := setReg c.regs rd v })
  Pure.pure none

/-- `Cpu::update_paging` of `cpu/cpu.rs`. -/
def updatePaging (csr_addr : Nat) (c : Cpu) : Cpu :=
  if csr_addr ≠ SATP then c
  else
    let satp := Csr.load c.csr SATP
    { c with
      page_table := (satp &&& MASK_PPN) * PAGE_SIZE,
      enable_paging := (satp >>> 60) == 8 }

/-- Opcode 0x03 (`LOAD`) arm of `Cpu::execute`. -/
def execOp03 (inst funct3 rd rs1 : Nat) : EmuM Cpu (Option Nat) := do
  let c ← getS
  let addr := wadd (c.regs rs1) (get_i_imm inst)
  let v ←
    if funct3 = 0x0 then do let x ← Cpu.load addr 8; Pure.pure (sx8 x)
    else if funct3 = 0x1 then do let x ← Cpu.load addr 16; Pure.pure (sx16 x)
    else if funct3 = 0x2 then do let x ← Cpu.load addr 32; Pure.pure (sx32 x)
    else if funct3 = 0x3 then Cpu.load addr 64
    else if funct3 = 0x4 then Cpu.load addr 8
    else if funct3 = 0x5 then Cpu.load addr 16
    else if funct3 = 0x6 then Cpu.load addr 32
    else throwE (Exept.illegalInstruction inst)
  writeRd rd v

/-- Opcode 0x13 (`OP-IMM`) arm of `Cpu::execute`. -/
def execOp13 (inst funct3 funct7 rd rs1 : Nat) : EmuM Cpu (Option Nat) := do
  let imm := get_i_imm inst
  let shamt := get_shamt_6 imm
  let c ← getS
  if funct3 = 0x0 then writeRd rd (wadd (c.regs rs1) imm)
  else if funct3 = 0x1 then writeRd rd (shl64 (c.regs rs1) shamt)
  else if funct3 = 0x2 then writeRd rd (if toI64 (c.regs rs1) < toI64 imm then 1 else 0)
  else if funct3 = 0x3 then writeRd rd (if c.regs rs1 < imm then 1 else 0)
  else if funct3 = 0x4 then writeRd rd (c.regs rs1 ^^^ imm)
  else if funct3 = 0x5 then
    if funct7 >>> 1 = 0x0 then writeRd rd (shr64 (c.regs rs1) shamt)
    else if funct7 >>> 1 = 0x10 then
      writeRd rd (ofInt64 (arithShr (toI64 (c.regs rs1)) (shamt % 64)))
    else throwE (Exept.illegalInstruction inst)
  else if funct3 = 0x6 then writeRd rd (c.regs rs1 ||| imm)
  else if funct3 = 0x7 then writeRd rd (c.regs rs1 &&& imm)
  else throwE (Exept.illegalInstruction inst)

/-- Opcode 0x17 (`AUIPC`) arm of `Cpu::execute`. -/
def execOp17 (inst rd : Nat) : EmuM Cpu (Option Nat) := do
  let c ← getS
  writeRd rd (wadd c.pc (get_u_imm inst))

/-- Opcode 0x1b (`OP-IMM-32`) arm of `Cpu::execute`. -/
def execOp1b (inst funct3 funct7 rd rs1 : Nat) : EmuM Cpu (Option Nat) := do
  let imm := get_i_imm inst
  let shamt := get_shamt_5 imm
  let c ← getS
  if funct3 = 0x0 then writeRd rd (sx32 (wadd (c.regs rs1) imm))
  else if funct3 = 0x1 then writeRd rd (sx32 (shl64 (c.regs rs1) shamt))
  else if funct3 = 0x5 then
    if funct7 = 0x0 then writeRd rd (sx32 (shr32 (c.regs rs1) shamt))
    else if funct7 = 0x20 then
      writeRd rd (ofInt64 (arithShr (toI32 (c.regs rs1)) (shamt % 32)))
    else throwE (Exept.illegalInstruction inst)
  else throwE (Exept.illegalInstruction inst)

/-- Opcode 0x23 (`STORE`) arm of `Cpu::execute`. -/
def execOp23 (inst funct3 rs1 rs2 : Nat) : EmuM Cpu (Option Nat) := do
  let c ← getS
  let addr := wadd (c.regs rs1) (get_s_imm inst)
  if funct3 = 0x0 then do Cpu.store addr 8 (c.regs rs2); Pure.pure none
  else if funct3 = 0x1 then do Cpu.store addr 16 (c.regs rs2); Pure.pure none
  else if funct3 = 0x2 then do Cpu.store addr 32 (c.regs rs2); Pure.pure none
  else if funct3 = 0x3 then do Cpu.store addr 64 (c.regs rs2); Pure.pure none
  else throwE (Exept.illegalInstruction inst)

/-- The `t ← load; store(f t); rd ← t` pattern shared by the AMO arms
(opcode 0x2f); `size` is 32 or 64 and `f` the stored combination. -/
def amoStep (size rd rs1 : Nat) (f : Cpu → Nat → Nat) : EmuM Cpu (Option Nat) := do
  let c ← getS
  let t ← Cpu.load (c.regs rs1) size
  let c1 ← getS
  Cpu.store (c1.regs rs1) size (f c1 t)
  writeRd rd t

/-- Opcode 0x2f (`AMO`) arm of `Cpu::execute`; `funct5 = funct7 >> 2`. -/
def execOp2f (inst funct3 funct5 rd rs1 rs2 : Nat) : EmuM Cpu (Option Nat) := do
  if funct3 = 0x2 ∧ funct5 = 0x0 then amoStep 32 rd rs1 (fun c t => wadd t (c.regs rs2))
  else if funct3 = 0x2 ∧ funct5 = 0x1 then amoStep 32 rd rs1 (fun c _ => c.regs rs2)
  else if funct3 = 0x2 ∧ funct5 = 0x2 then do
    let c ← getS
    let t ← Cpu.load (c.regs rs1) 32
    writeRd rd t
  else if funct3 = 0x2 ∧ funct5 = 0x3 then do
    let c ← getS
    Cpu.store (c.regs rs1) 32 (c.regs rs2)
    Pure.pure none
  else if funct3 = 0x2 ∧ funct5 = 0x4 then amoStep 32 rd rs1 (fun c t => c.regs rs2 ^^^ t)
  else if funct3 = 0x2 ∧ funct5 = 0x8 then amoStep 32 rd rs1 (fun c t => c.regs rs2 ||| t)
  else if funct3 = 0x2 ∧ funct5 = 0xc then amoStep 32 rd rs1 (fun c t => c.regs rs2 &&& t)
  else if funct3 = 0x2 ∧ funct5 = 0x10 then
    amoStep 32 rd rs1 (fun c t => ofInt64 (min (toI32 (c.regs rs2)) (toI32 t)))
  else if funct3 = 0x2 ∧ funct5 = 0x14 then
    amoStep 32 rd rs1 (fun c t => ofInt64 (max (toI32 (c.regs rs2)) (toI32 t)))
  else if funct3 = 0x2 ∧ funct5 = 0x18 then amoStep 32 rd rs1 (fun c t => min (c.regs rs2) t)
  else if funct3 = 0x2 ∧ funct5 = 0x1c then amoStep 32 rd rs1 (fun c t => max (c.regs rs2) t)
  else if funct3 = 0x3 ∧ funct5 = 0x0 then amoStep 64 rd rs1 (fun c t => wadd t (c.regs rs2))
  else if funct3 = 0x3 ∧ funct5 = 0x1 then amoStep 64 rd rs1 (fun c _ => c.regs rs2)
  else if funct3 = 0x3 ∧ funct5 = 0x2 then do
    let c ← getS
    let t ← Cpu.load (c.regs rs1) 64
    writeRd rd t
  else if funct3 = 0x3 ∧ funct5 = 0x3 then do
    let c ← getS
    Cpu.store (c.regs rs1) 64 (c.regs rs2)
    Pure.pure none
  else if funct3 = 0x3 ∧ funct5 = 0x4 then amoStep 64 rd rs1 (fun c t => c.regs rs2 ^^^ t)
  else if funct3 = 0x3 ∧ funct5 = 0x8 then amoStep 64 rd rs1 (fun c t => c.regs rs2 ||| t)
  else if funct3 = 0x3 ∧ funct5 = 0xc then amoStep 64 rd rs1 (fun c t => c.regs rs2 &&& t)
  else if funct3 = 0x3 ∧ funct5 = 0x10 then
    amoStep 64 rd rs1 (fun c t => ofInt64 (min (toI64 (c.regs rs2)) (toI64 t)))
  else if funct3 = 0x3 ∧ funct5 = 0x14 then
    amoStep 64 rd rs1 (fun c t => ofInt64 (max (toI64 (c.regs rs2)) (toI64 t)))
  else if funct3 = 0x3 ∧ funct5 = 0x18 then amoStep 64 rd rs1 (fun c t => min (c.regs rs2) t)
  else if funct3 = 0x3 ∧ funct5 = 0x1c then amoStep 64 rd rs1 (fun c t => max (c.regs rs2) t)
  else throwE (Exept.illegalInstruction inst)

/-- Opcode 0x33 (`OP`, with M extension) arm of `Cpu::execute`. -/
def execOp33 (inst funct3 funct7 rd rs1 rs2 : Nat) : EmuM Cpu (Option Nat) := do
  let c ← getS
  let shamt := get_shamt_6 (c.regs rs2)
  if funct3 = 0x0 ∧ funct7 = 0x0 then writeRd rd (wadd (c.regs rs1) (c.regs rs2))
  else if funct3 = 0x0 ∧ funct7 = 0x1 then writeRd rd (wmul (c.regs rs1) (c.regs rs2))
  else if funct3 = 0x0 ∧ funct7 = 0x20 then writeRd rd (wsub (c.regs rs1) (c.regs rs2))
  else if funct3 = 0x1 ∧ funct7 = 0x0 then writeRd rd (shl64 (c.regs rs1) shamt)
  else if funct3 = 0x1 ∧ funct7 = 0x1 then
    writeRd rd (ofInt64 (arithShr (toI64 (c.regs rs1) * toI64 (c.regs rs2)) 64))
  else if funct3 = 0x2 ∧ funct7 = 0x0 then
    writeRd rd (if toI64 (c.regs rs1) < toI64 (c.regs rs2) then 1 else 0)
  else if funct3 = 0x2 ∧ funct7 = 0x1 then
    -- mulhsu: the source zero-extends rs1 (`self.regs[rs1] as i128` on a u64)
    writeRd rd (ofInt64 (arithShr ((c.regs rs1 % 2 ^ 64 : Nat) * (c.regs rs2 % 2 ^ 64 : Nat) : Nat) 64))
  else if funct3 = 0x3 ∧ funct7 = 0x0 then
    writeRd rd (if c.regs rs1 < c.regs rs2 then 1 else 0)
  else if funct3 = 0x3 ∧ funct7 = 0x1 then
    writeRd rd (wrap64 ((c.regs rs1 % 2 ^ 64) * (c.regs rs2 % 2 ^ 64) >>> 64))
  else if funct3 = 0x4 ∧ funct7 = 0x0 then writeRd rd (c.regs rs1 ^^^ c.regs rs2)
  else if funct3 = 0x4 ∧ funct7 = 0x1 then
    if c.regs rs2 = 0 then writeRd rd 0xffffffffffffffff
    else writeRd rd (ofInt64 (Int.tdiv (toI64 (c.regs rs1)) (toI64 (c.regs rs2))))
  else if funct3 = 0x5 ∧ funct7 = 0x0 then writeRd rd (shr64 (c.regs rs1) shamt)
  else if funct3 = 0x5 ∧ funct7 = 0x1 then
    if c.regs rs2 = 0 then writeRd rd 0xffffffffffffffff
    else writeRd rd (c.regs rs1 / c.regs rs2)
  else if funct3 = 0x5 ∧ funct7 = 0x20 then
    writeRd rd (ofInt64 (arithShr (toI64 (c.regs rs1)) (shamt % 64)))
  else if funct3 = 0x6 ∧ funct7 = 0x0 then writeRd rd (c.regs rs1 ||| c.regs rs2)
  else if funct3 = 0x6 ∧ funct7 = 0x1 then
    if c.regs rs2 = 0 then writeRd rd (c.regs rs1)
    else writeRd rd (ofInt64 (Int.tmod (toI64 (c.regs rs1)) (toI64 (c.regs rs2))))
  else if funct3 = 0x7 ∧ funct7 = 0x0 then writeRd rd (c.regs rs1 &&& c.regs rs2)
  else if funct3 = 0x7 ∧ funct7 = 0x1 then
    if c.regs rs2 = 0 then writeRd rd (c.regs rs1)
    else writeRd rd (c.regs rs1 % c.regs rs2)
  else throwE (Exept.illegalInstruction inst)

/-- Opcode 0x37 (`LUI`) arm of `Cpu::execute`. -/
def execOp37 (inst rd : Nat) : EmuM Cpu (Option Nat) :=
  writeRd rd (get_u_imm inst)

/-- Opcode 0x3b (`OP-32`) arm of `Cpu::execute`.  Two source peculiarities are
kept as written: `divuw` divides the full 64-bit register values, and
`remuw` with a nonzero rs2 whose low 32 bits are zero panics
(`u32::wrapping_rem` by zero), hence `diverge`. -/
def execOp3b (inst funct3 funct7 rd rs1 rs2 : Nat) : EmuM Cpu (Option Nat) := do
  let c ← getS
  let shamt := get_shamt_5 (c.regs rs2)
  if funct3 = 0x0 ∧ funct7 = 0x0 then writeRd rd (sx32 (wadd (c.regs rs1) (c.regs rs2)))
  else if funct3 = 0x0 ∧ funct7 = 0x01 then
    writeRd rd (ofInt64 (wrapI32 (toI32 (c.regs rs1) * toI32 (c.regs rs2))))
  else if funct3 = 0x0 ∧ funct7 = 0x20 then writeRd rd (sx32 (wsub (c.regs rs1) (c.regs rs2)))
  else if funct3 = 0x1 ∧ funct7 = 0x0 then writeRd rd (ofInt64 (toI32 (shl32 (c.regs rs1) shamt)))
  else if funct3 = 0x4 ∧ funct7 = 0x01 then
    if toI32 (c.regs rs2) = 0 then writeRd rd 0xffffffffffffffff
    else writeRd rd (ofInt64 (wrapI32 (Int.tdiv (toI32 (c.regs rs1)) (toI32 (c.regs rs2)))))
  else if funct3 = 0x5 ∧ funct7 = 0x0 then writeRd rd (ofInt64 (toI32 (shr32 (c.regs rs1) shamt)))
  else if funct3 = 0x5 ∧ funct7 = 0x01 then
    if c.regs rs2 = 0 then writeRd rd 0xffffffffffffffff
    else writeRd rd (c.regs rs1 / c.regs rs2)
  else if funct3 = 0x5 ∧ funct7 = 0x20 then
    writeRd rd (ofInt64 (arithShr (toI32 (c.regs rs1)) shamt))
  else if funct3 = 0x6 ∧ funct7 = 0x1 then
    if toI32 (c.regs rs2) = 0 then writeRd rd (sx32 (c.regs rs1))
    else writeRd rd (ofInt64 (wrapI32 (Int.tmod (toI32 (c.regs rs1)) (toI32 (c.regs rs2)))))
  else if funct3 = 0x7 ∧ funct7 = 0x1 then
    if c.regs rs2 = 0 then writeRd rd (c.regs rs1)
    else
      let dividend := c.regs rs1 % 2 ^ 32
      let divisor := c.regs rs2 % 2 ^ 32
      if divisor = 0 then diverge
      else writeRd rd (ofInt64 (toI32 (dividend % divisor)))
  else throwE (Exept.illegalInstruction inst)

/-- Opcode 0x63 (`BRANCH`) arm of `Cpu::execute`. -/
def execOp63 (inst funct3 rs1 rs2 : Nat) : EmuM Cpu (Option Nat) := do
  let imm := get_b_imm inst
  let c ← getS
  if funct3 = 0x0 then
    if c.regs rs1 = c.regs rs2 then Pure.pure (some (wadd c.pc imm)) else Pure.pure none
  else if funct3 = 0x1 then
    if c.regs rs1 ≠ c.regs rs2 then Pure.pure (some (wadd c.pc imm)) else Pure.pure none
  else if funct3 = 0x4 then
    if toI64 (c.regs rs1) < toI64 (c.regs rs2) then Pure.pure (some (wadd c.pc imm))
    else Pure.pure none
  else if funct3 = 0x5 then
    if toI64 (c.regs rs1) ≥ toI64 (c.regs rs2) then Pure.pure (some (wadd c.pc imm))
    else Pure.pure none
  else if funct3 = 0x6 then
    if c.regs rs1 < c.regs rs2 then Pure.pure (some (wadd c.pc imm)) else Pure.pure none
  else if funct3 = 0x7 then
    if c.regs rs1 ≥ c.regs rs2 then Pure.pure (some (wadd c.pc imm)) else Pure.pure none
  else throwE (Exept.illegalInstruction inst)

/-- Opcode 0x67 (`JALR`) arm of `Cpu::execute`. -/
def execOp67 (inst rd rs1 : Nat) : EmuM Cpu (Option Nat) := do
  let c ← getS
  let t := wadd c.pc 4
  let newPc := wadd (c.regs rs1) (get_i_imm inst) &&& not64 1
  modifyS (fun c1 => { c1 with regs := setReg c1.regs rd t })
  Pure.pure (some newPc)

/-- Opcode 0x6f (`JAL`) arm of `Cpu::execute`. -/
def execOp6f (inst rd : Nat) : EmuM Cpu (Option Nat) := do
  let c ← getS
  modifyS (fun c1 => { c1 with regs := setReg c1.regs rd (wadd c.pc 4) })
  let imm := get_j_imm inst
  Pure.pure (some (wadd c.pc imm))

/-- The `sret` sub-arm of opcode 0x73. -/
def execSret : EmuM Cpu (Option Nat) := do
  let c ← getS
  let sstatus := Csr.load c.csr SSTATUS
  let mode' := (sstatus &&& MASK_SPP) >>> 8
  let spie := (sstatus &&& MASK_SPIE) >>> 5
  let sstatus := (sstatus &&& not64 MASK_SIE) ||| (spie <<< 1)
  let sstatus := sstatus ||| MASK_SPIE
  let sstatus := sstatus &&& not64 MASK_SPP
  modifyS (fun c1 => { c1 with mode := mode', csr := Csr.store c1.csr SSTATUS sstatus })
  let c2 ← getS
  Pure.pure (some (Csr.load c2.csr SEPC &&& not64 0b11))

/-- The `mret` sub-arm of opcode 0x73.  The source clears MPRV unconditionally
(its comment says: only when MPP ≠ M); embedded as written. -/
def execMret : EmuM Cpu (Option Nat) := do
  let c ← getS
  let mstatus := Csr.load c.csr MSTATUS
  let mode' := (mstatus &&& MASK_MPP) >>> 11
  let mpie := (mstatus &&& MASK_MPIE) >>> 7
  let mstatus := (mstatus &&& not64 MASK_MIE) ||| (mpie <<< 3)
  let mstatus := mstatus ||| MASK_MPIE
  let mstatus := mstatus &&& not64 MASK_MPP
  let mstatus := mstatus &&& not64 MASK_MPRV
  modifyS (fun c1 => { c1 with mode := mode', csr := Csr.store c1.csr MSTATUS mstatus })
  let c2 ← getS
  Pure.pure (some (Csr.load c2.csr MEPC &&& not64 0b11))

/-- Opcode 0x73 (`SYSTEM`) arm of `Cpu::execute`. -/
def execOp73 (inst funct3 funct7 rd rs1 rs2 : Nat) : EmuM Cpu (Option Nat) := do
  let csr_addr := (inst &&& 0xfff00000) >>> 20
  if funct3 = 0x0 then
    if rs2 = 0x0 ∧ funct7 = 0x0 then do
      let c ← getS
      if c.mode = User then throwE (Exept.environmentCallFromUMode c.pc)
      else if c.mode = Supervisor then throwE (Exept.environmentCallFromSMode c.pc)
      else if c.mode = Machine then throwE (Exept.environmentCallFromMMode c.pc)
      else diverge
    else if rs2 = 0x1 ∧ funct7 = 0x0 then do
      let c ← getS
      throwE (Exept.breakpoint c.pc)
    else if rs2 = 0x2 ∧ funct7 = 0x8 then execSret
    else if rs2 = 0x2 ∧ funct7 = 0x18 then execMret
    else if funct7 = 0x9 then Pure.pure none
    else throwE (Exept.illegalInstruction inst)
  else if funct3 = 0x1 then do
    let c ← getS
    let t := Csr.load c.csr csr_addr
    modifyS (fun c1 => { c1 with csr := Csr.store c1.csr csr_addr (c1.regs rs1) })
    modifyS (fun c1 => { c1 with regs := setReg c1.regs rd t })
    modifyS (updatePaging csr_addr)
    Pure.pure none
  else if funct3 = 0x2 then do
    let c ← getS
    let t := Csr.load c.csr csr_addr
    modifyS (fun c1 => { c1 with csr := Csr.store c1.csr csr_addr (t ||| c1.regs rs1) })
    modifyS (fun c1 => { c1 with regs := setReg c1.regs rd t })
    modifyS (updatePaging csr_addr)
    Pure.pure none
  else if funct3 = 0x3 then do
    let c ← getS
    let t := Csr.load c.csr csr_addr
    modifyS (fun c1 => { c1 with csr := Csr.store c1.csr csr_addr (t &&& not64 (c1.regs rs1)) })
    modifyS (fun c1 => { c1 with regs := setReg c1.regs rd t })
    modifyS (updatePaging csr_addr)
    Pure.pure none
  else if funct3 = 0x5 then do
    let zimm := rs1
    modifyS (fun c1 => { c1 with regs := setReg c1.regs rd (Csr.load c1.csr csr_addr) })
    modifyS (fun c1 => { c1 with csr := Csr.store c1.csr csr_addr zimm })
    modifyS (updatePaging csr_addr)
    Pure.pure none
  else if funct3 = 0x6 then do
    let zimm := rs1
    let c ← getS
    let t := Csr.load c.csr csr_addr
    modifyS (fun c1 => { c1 with csr := Csr.store c1.csr csr_addr (t ||| zimm) })
    modifyS (fun c1 => { c1 with regs := setReg c1.regs rd t })
    modifyS (updatePaging csr_addr)
    Pure.pure none
  else if funct3 = 0x7 then do
    let zimm := rs1
    let c ← getS
    let t := Csr.load c.csr csr_addr
    modifyS (fun c1 => { c1 with csr := Csr.store c1.csr csr_addr (t &&& not64 zimm) })
    modifyS (fun c1 => { c1 with regs := setReg c1.regs rd t })
    modifyS (updatePaging csr_addr)
    Pure.pure none
  else throwE (Exept.illegalInstruction inst)

/-- `Cpu::execute` of `cpu/cpu.rs`: decode, zero `x0`, dispatch on the opcode,
and return the next pc (`pc + 4` unless the arm returned one). -/
def Cpu.execute (inst : Nat) : EmuM Cpu Nat := do
  let funct7 := funct7Of inst
  let rs2 := rs2Of inst
  let rs1 := rs1Of inst
  let funct3 := funct3Of inst
  let rd := rdOf inst
  let opcode := opcodeOf inst
  modifyS (fun c => { c with regs := setReg c.regs 0 0 })
  let early ←
    if opcode = 0x3 then execOp03 inst funct3 rd rs1
    else if opcode = 0x0f then Pure.pure none
    else if opcode = 0x13 then execOp13 inst funct3 funct7 rd rs1
    else if opcode = 0x17 then execOp17 inst rd
    else if opcode = 0x1b then execOp1b inst funct3 funct7 rd rs1
    else if opcode = 0x23 then execOp23 inst funct3 rs1 rs2
    else if opcode = 0x2f then execOp2f inst funct3 (funct7 >>> 2) rd rs1 rs2
    else if opcode = 0x33 then execOp33 inst funct3 funct7 rd rs1 rs2
    else if opcode = 0x37 then execOp37 inst rd
    else if opcode = 0x3b then execOp3b inst funct3 funct7 rd rs1 rs2
    else if opcode = 0x63 then execOp63 inst funct3 rs1 rs2
    else if opcode = 0x67 then execOp67 inst rd rs1
    else if opcode = 0x6f then execOp6f inst rd
    else if opcode = 0x73 then execOp73 inst funct3 funct7 rd rs1 rs2
    else throwE (Exept.illegalInstruction inst)
  match early with
  | some newPc => Pure.pure newPc
  | none => do
    let c ← getS
    Pure.pure (wadd c.pc 4)

/-- The register-family-indexed state update shared by `Cpu::handle_exception`
and `Cpu::handle_interrupt` (the source selects the family by tuple): store
EPC/CAUSE/TVAL, save IE into PIE, clear IE, record the previous mode in PP,
and move to `mode'` with the already-computed new pc. -/
def trapCore (c : Cpu) (cause tval mode' pcNew : Nat)
    (aSTATUS aCAUSE aTVAL aEPC maskPIE pieI maskIE ieI maskPP ppI : Nat) : Cpu :=
  let csr1 := Csr.store c.csr aEPC c.pc
  let csr2 := Csr.store csr1 aCAUSE cause
  let csr3 := Csr.store csr2 aTVAL tval
  let status := Csr.load csr3 aSTATUS
  let ie := (status &&& maskIE) >>> ieI
  let status := (status &&& not64 maskPIE) ||| (ie <<< pieI)
  let status := status &&& not64 maskIE
  let status := (status &&& not64 maskPP) ||| (c.mode <<< ppI)
  let csr4 := Csr.store csr3 aSTATUS status
  { c with mode := mode', pc := pcNew, csr := csr4 }

/-- `Cpu::handle_exception` of `cpu/cpu.rs`. -/
def Cpu.handleException (e : Exept) (c : Cpu) : Cpu :=
  let cause := Exept.code e
  let trapInSMode := decide (c.mode ≤ Supervisor) && Csr.is_medelegated c.csr cause
  if trapInSMode then
    trapCore c cause (Exept.value e) Supervisor (Csr.load c.csr STVEC &&& not64 0b11)
      SSTATUS SCAUSE STVAL SEPC MASK_SPIE 5 MASK_SIE 1 MASK_SPP 8
  else
    trapCore c cause (Exept.value e) Machine (Csr.load c.csr MTVEC &&& not64 0b11)
      MSTATUS MCAUSE MTVAL MEPC MASK_MPIE 7 MASK_MIE 3 MASK_MPP 11

/-- `Cpu::handle_interrupt` of `cpu/cpu.rs`.  In the vectored arm the source
computes `tvec_base + cause << 2`, which in Rust parses as
`(tvec_base + cause) << 2`; embedded as written.  `tvec_mode` 2 or 3 hits
`unreachable!()`, hence `none`. -/
def Cpu.handleInterrupt (i : Interrupt) (c : Cpu) : Option Cpu :=
  let cause := Interrupt.code i
  let trapInSMode := decide (c.mode ≤ Supervisor) && Csr.is_midelegated c.csr cause
  if trapInSMode then
    let tvec := Csr.load c.csr STVEC
    let tvecMode := tvec &&& 0b11
    let tvecBase := tvec &&& not64 0b11
    if tvecMode = 0 then
      some (trapCore c cause 0 Supervisor tvecBase
        SSTATUS SCAUSE STVAL SEPC MASK_SPIE 5 MASK_SIE 1 MASK_SPP 8)
    else if tvecMode = 1 then
      some (trapCore c cause 0 Supervisor (wrap64 ((tvecBase + cause) <<< 2))
        SSTATUS SCAUSE STVAL SEPC MASK_SPIE 5 MASK_SIE 1 MASK_SPP 8)
    else none
  else
    let tvec := Csr.load c.csr MTVEC
    let tvecMode := tvec &&& 0b11
    let tvecBase := tvec &&& not64 0b11
    if tvecMode = 0 then
      some (trapCore c cause 0 Machine tvecBase
        MSTATUS MCAUSE MTVAL MEPC MASK_MPIE 7 MASK_MIE 3 MASK_MPP 11)
    else if tvecMode = 1 then
      some (trapCore c cause 0 Machine (wrap64 ((tvecBase + cause) <<< 2))
        MSTATUS MCAUSE MTVAL MEPC MASK_MPIE 7 MASK_MIE 3 MASK_MPP 11)
    else none

/-- `RVABI` of `cpu/cpu.rs`. -/
def RVABI : List String :=
  ["zero", "ra", "sp", "gp", "tp", "t0", "t1", "t2", "s0", "s1", "a0", "a1", "a2", "a3", "a4",
   "a5", "a6", "a7", "s2", "s3", "s4", "s5", "s6", "s7", "s8", "s9", "s10", "s11", "t3", "t4",
   "t5", "t6"]

/-- `Cpu::reg` of `cpu/cpu.rs`: the inspection helper used by the tests.
The `dump_registers` call only prints; `panic!` arms are `none`. -/
def Cpu.reg (c : Cpu) (r : String) : Option Nat :=
  match RVABI.findIdx? (fun v => v == r) with
  | some i => some (c.regs i)
  | none =>
    if r = "pc" then some c.pc
    else if r = "fp" then (RVABI.findIdx? (fun v => v == "s0")).map c.regs
    else if r.startsWith "x" then
      match (r.drop 1).toNat? with
      | some i => if i ≤ 31 then some (c.regs i) else none
      | none => none
    else if r = "mhartid" then some (Csr.load c.csr MHARTID)
    else if r = "mstatus" then some (Csr.load c.csr MSTATUS)
    else if r = "mtvec" then some (Csr.load c.csr MTVEC)
    else if r = "mepc" then some (Csr.load c.csr MEPC)
    else if r = "mcause" then some (Csr.load c.csr MCAUSE)
    else if r = "mtval" then some (Csr.load c.csr MTVAL)
    else if r = "medeleg" then some (Csr.load c.csr MEDELEG)
    else if r = "mscratch" then some (Csr.load c.csr MSCRATCH)
    else if r = "MIP" then some (Csr.load c.csr MIP)
    else if r = "mcounteren" then some (Csr.load c.csr MCOUNTEREN)
    else if r = "sstatus" then some (Csr.load c.csr SSTATUS)
    else if r = "stvec" then some (Csr.load c.csr STVEC)
    else if r = "sepc" then some (Csr.load c.csr SEPC)
    else if r = "scause" then some (Csr.load c.csr SCAUSE)
    else if r = "stval" then some (Csr.load c.csr STVAL)
    else if r = "sscratch" then some (Csr.load c.csr SSCRATCH)
    else if r = "SIP" then some (Csr.load c.csr SIP)
    else if r = "SATP" then some (Csr.load c.csr SATP)
    else none

/-! Concrete fixture states used by the claim witnesses and counterexamples. -/

/-- An empty DRAM (the structure does not fix the vector's length). -/
def dram0 : Dram := ⟨[]⟩

def uart0 : Uart := ⟨fun _ => 0, false⟩

def virtio0 : VirtioBlock := ⟨fun _ => 0⟩

def bus0 : Bus := ⟨dram0, ⟨0, 0⟩, ⟨0, 0, 0, 0⟩, uart0, virtio0⟩

/-- An all-zero CSR file. -/
def csrZero : Csr := fun _ => 0

/-- A hart as built by `Cpu::new` except that DRAM and `sp` are left empty;
`pc = DRAM_BASE`, machine mode, paging off. -/
def cpu0 : Cpu := ⟨fun _ => 0, DRAM_BASE, Machine, bus0, csrZero, false, 0⟩

/-- `true` exactly on `Ok` results. -/
def isOkE {α : Type} : Except Exept α → Bool
  | Except.ok _ => true
  | Except.error _ => false

/-- CSR file exercising the SIP write: MIE = 0x800, MIDELEG = 0, MIP = 0. -/
def csrSipBug : Csr := fun a => if a = MIE then 2048 else 0

/-- Hart with MTVEC = 5: trap vector base 4, vector mode 1. -/
def cpuVec : Cpu := { cpu0 with csr := fun a => if a = MTVEC then 5 else 0 }

/-- Hart with MSTATUS holding MPP = Machine and MPRV = 1. -/
def cpuMret : Cpu := { cpu0 with csr := fun a => if a = MSTATUS then 0x21800 else 0 }

/-- Hart with x1 = 2^32 (and x2 = 0): REMW operands. -/
def cpuRemw : Cpu := { cpu0 with regs := fun i => if i = 1 then 2 ^ 32 else 0 }

/-- Hart with x1 = 2^32 + 10 and x2 = 3: DIVUW operands. -/
def cpuDivuw : Cpu :=
  { cpu0 with regs := fun i => if i = 1 then 2 ^ 32 + 10 else if i = 2 then 3 else 0 }

/-- Hart with x1 = 1 and x2 = 2^32: REMUW operands whose divisor is nonzero
but has zero low 32 bits. -/
def cpuRemuw : Cpu :=
  { cpu0 with regs := fun i => if i = 1 then 1 else if i = 2 then 2 ^ 32 else 0 }

/-- Supervisor-mode hart with MEDELEG bit 3 (breakpoint) set. -/
def cpuSdel : Cpu := { cpu0 with mode := Supervisor, csr := fun a => if a = MEDELEG then 8 else 0 }

/-- Hart with x1 = 10, x2 = 0 and x5 = 7: divide-by-zero operands. -/
def cpuDivZ : Cpu :=
  { cpu0 with regs := fun i => if i = 1 then 10 else if i = 5 then 7 else 0 }

/-- The value left in the destination register after `execute` (using the
final register file, so a write to `rd` is observed). -/
def execRd (inst : Nat) (c : Cpu) : Option Nat :=
  (Cpu.execute inst c).map (fun p => p.1.regs (rdOf inst))

/-! Theorems. -/

theorem EmuM.bind_apply {σ α β : Type} (m : EmuM σ α) (f : α → EmuM σ β) (s : σ) :
    (m >>= f) s =
      match m s with
      | none => none
      | some (s', Except.error e) => some (s', Except.error e)
      | some (s', Except.ok a) => f a s' := rfl

theorem EmuM.pure_apply {σ α : Type} (a : α) (s : σ) :
    (Pure.pure a : EmuM σ α) s = some (s, Except.ok a) := rfl

theorem getS_apply {σ : Type} (s : σ) : (getS : EmuM σ σ) s = some (s, Except.ok s) := rfl

theorem modifyS_apply {σ : Type} (f : σ → σ) (s : σ) :
    (modifyS f) s = some (f s, Except.ok ⟨⟩) := rfl

theorem throwE_apply {σ α : Type} (e : Exept) (s : σ) :
    (throwE e : EmuM σ α) s = some (s, Except.error e) := rfl

theorem writeRd_apply (rd v : Nat) (c : Cpu) :
    (writeRd rd v) c = some ({ c with regs := setReg c.regs rd v }, Except.ok none) := rfl

/-- C1: a CSR write to SIP is claimed to set MIP to
`(old MIP & !MIDELEG) | (value & MIDELEG)`.  On `csrSipBug` (MIP = 0,
MIDELEG = 0, MIE = 0x800) writing 0 to SIP should leave MIP = 0, but the
source's SIP arm reads `csrs[MIE]` instead of `csrs[MIP]` and MIP becomes
0x800. -/
theorem csr_sip_store_reads_mie : (Csr.store csrSipBug SIP 0) MIP = 2048 ∧
    csrSipBug MIP = 0 ∧ csrSipBug MIDELEG = 0 ∧ csrSipBug MIE = 2048 ∧
    Csr.load csrSipBug SIP = csrSipBug MIP &&& csrSipBug MIDELEG := by decide

/-- C2: with MTVEC = 5 (base 4, vector mode 1) an undelegated supervisor
software interrupt (cause 1) should set pc to 4 + 4·1 = 8; the source
computes `tvec_base + cause << 2`, which Rust parses as
`(tvec_base + cause) << 2`, and pc becomes 20. -/
theorem handle_interrupt_vectored_pc :
    (Cpu.handleInterrupt Interrupt.supervisorSoftwareInterrupt cpuVec).map Cpu.pc = some 20 ∧
    Csr.load cpuVec.csr MTVEC = 5 ∧ Interrupt.code Interrupt.supervisorSoftwareInterrupt = 1 := by
  decide

/-- C4: a 64-bit DRAM load at a perfectly in-range address is claimed to
return the little-endian value; the source's size whitelist is
{8, 16, 24, 32}, so size 64 faults — and the fault carries the size, not the
address.  Stores fail the same way. -/
theorem dram_rejects_size_64 :
    (∀ d : Dram, Dram.load d DRAM_BASE 64 = some (Except.error (Exept.loadAccessFault 64))) ∧
    (∀ (d : Dram) (v : Nat),
      Dram.store d DRAM_BASE 64 v = some (Except.error (Exept.storeAMOAccessFault 64), d)) := by
  exact ⟨fun d => rfl, fun d v => rfl⟩

/-- C5 (counterexample): REMW with divisor x2 = 0 and dividend x1 = 2^32
writes 0 — the sign-extension of the low 32 bits — not the dividend 2^32;
and REMUW with the nonzero divisor x2 = 2^32 panics (aborts) because the
divisor's low 32 bits are zero, instead of completing without a trap.
Instruction words: 0x0220E1BB = remw x3, x1, x2; 0x0220F1BB = remuw x3, x1, x2. -/
theorem remw_zero_divisor_counterexample :
    ((Cpu.execute 0x0220E1BB cpuRemw).map (fun p => p.1.regs 3) = some 0 ∧
      cpuRemw.regs 1 = 2 ^ 32) ∧
    Cpu.execute 0x0220F1BB cpuRemuw = none := by
  refine ⟨⟨by decide, by decide⟩, rfl⟩

/-- C6: DIVUW (0x0220D1BB = divuw x3, x1, x2) with x1 = 2^32 + 10 and x2 = 3
should write the sign-extension of the 32-bit quotient 10 / 3 = 3; the
source divides the full 64-bit registers and writes 1431655768. -/
theorem divuw_full_width : (Cpu.execute 0x0220D1BB cpuDivuw).map (fun p => p.1.regs 3) =
      some 1431655768 ∧ cpuDivuw.regs 1 % 2 ^ 32 = 10 ∧ cpuDivuw.regs 2 = 3 := by decide

/-- C7: MRET (0x30200073) from MSTATUS = 0x21800 (MPP = Machine, MPRV = 1)
should leave MPRV set since MPP = M; the source clears MPRV unconditionally
and MSTATUS becomes 0x80 (claimed: 0x20080).  Mode is restored to Machine and
the next pc is MEPC & !0b11 = 0. -/
theorem mret_clears_mprv :
    (Cpu.execute 0x30200073 cpuMret).map (fun p => (Csr.load p.1.csr MSTATUS, p.1.mode, p.2)) =
      some (0x80, Machine, Except.ok 0) ∧ Csr.load cpuMret.csr MSTATUS = 0x21800 := by
  exact ⟨rfl, by decide⟩

/-- C8: immediately after `execute` returns for `addi x0, x0, 1`
(0x00100013), register file entry 0 is claimed to still read zero; the source
zeroes x0 only on entry to `execute`, so the write to rd = 0 persists and
both `regs[0]` and the `reg` helper observe 1. -/
theorem x0_stale_after_execute :
    (Cpu.execute 0x00100013 cpu0).map (fun p => p.1.regs 0) = some 1 ∧
    (Cpu.execute 0x00100013 cpu0).map (fun p => Cpu.reg p.1 "zero") = some (some 1) := by decide

/-- C3: after handle_exception, the EPC CSR of the selected family (SEPC when
the trap is delegated per `mode ≤ Supervisor` and the MEDELEG bit of the
cause, else MEPC) holds the trapping pc, the selected CAUSE holds the table
code, the selected TVAL the carried fault value, and the new pc is the
selected TVEC with its low two bits cleared. -/
theorem handle_exception_trap_csrs (e : Exept) (c : Cpu) :
    ((decide (c.mode ≤ Supervisor) && Csr.is_medelegated c.csr (Exept.code e)) = true →
      Csr.load (Cpu.handleException e c).csr SEPC = c.pc ∧
      Csr.load (Cpu.handleException e c).csr SCAUSE = Exept.code e ∧
      Csr.load (Cpu.handleException e c).csr STVAL = Exept.value e ∧
      (Cpu.handleException e c).pc = Csr.load c.csr STVEC &&& not64 0b11) ∧
    ((decide (c.mode ≤ Supervisor) && Csr.is_medelegated c.csr (Exept.code e)) = false →
      Csr.load (Cpu.handleException e c).csr MEPC = c.pc ∧
      Csr.load (Cpu.handleException e c).csr MCAUSE = Exept.code e ∧
      Csr.load (Cpu.handleException e c).csr MTVAL = Exept.value e ∧
      (Cpu.handleException e c).pc = Csr.load c.csr MTVEC &&& not64 0b11) := by
  constructor
  · intro h
    simp only [Cpu.handleException, h, if_true, trapCore, Csr.load, Csr.store]
    norm_num [SEPC, SCAUSE, STVAL, SSTATUS, SIE, SIP, STVEC, MSTATUS, MIE, MIP, MEPC, MCAUSE,
      MTVAL, MTVEC, MIDELEG, MEDELEG, SATP]
  · intro h
    simp only [Cpu.handleException, h, Bool.false_eq_true, if_false, trapCore, Csr.load, Csr.store]
    norm_num [SEPC, SCAUSE, STVAL, SSTATUS, SIE, SIP, STVEC, MSTATUS, MIE, MIP, MEPC, MCAUSE,
      MTVAL, MTVEC, MIDELEG, MEDELEG, SATP]

theorem handle_exception_trap_csrs_witness :
    (Csr.load (Cpu.handleException (Exept.breakpoint 7) cpuSdel).csr SEPC = cpuSdel.pc ∧
      Csr.load (Cpu.handleException (Exept.breakpoint 7) cpuSdel).csr SCAUSE =
        Exept.code (Exept.breakpoint 7) ∧
      Csr.load (Cpu.handleException (Exept.breakpoint 7) cpuSdel).csr STVAL =
        Exept.value (Exept.breakpoint 7) ∧
      (Cpu.handleException (Exept.breakpoint 7) cpuSdel).pc =
        Csr.load cpuSdel.csr STVEC &&& not64 0b11) ∧
    (Csr.load (Cpu.handleException (Exept.illegalInstruction 5) cpu0).csr MEPC = cpu0.pc ∧
      Csr.load (Cpu.handleException (Exept.illegalInstruction 5) cpu0).csr MCAUSE =
        Exept.code (Exept.illegalInstruction 5) ∧
      Csr.load (Cpu.handleException (Exept.illegalInstruction 5) cpu0).csr MTVAL =
        Exept.value (Exept.illegalInstruction 5) ∧
      (Cpu.handleException (Exept.illegalInstruction 5) cpu0).pc =
        Csr.load cpu0.csr MTVEC &&& not64 0b11) :=
  ⟨(handle_exception_trap_csrs (Exept.breakpoint 7) cpuSdel).1 (by decide),
   (handle_exception_trap_csrs (Exept.illegalInstruction 5) cpu0).2 (by decide)⟩

/-- C9: handle_exception and handle_interrupt (when it returns) never modify
the general-purpose registers; the bus and the paging fields are preserved
too, so only pc, the privilege mode and CSRs change. -/
theorem trap_handlers_preserve_regs :
    (∀ (e : Exept) (c : Cpu),
      (Cpu.handleException e c).regs = c.regs ∧ (Cpu.handleException e c).bus = c.bus ∧
      (Cpu.handleException e c).enable_paging = c.enable_paging ∧
      (Cpu.handleException e c).page_table = c.page_table) ∧
    (∀ (i : Interrupt) (c : Cpu),
      (Cpu.handleInterrupt i c).elim True (fun c' =>
        c'.regs = c.regs ∧ c'.bus = c.bus ∧
        c'.enable_paging = c.enable_paging ∧ c'.page_table = c.page_table)) := by
  constructor
  · intro e c
    by_cases h : (decide (c.mode ≤ Supervisor) && Csr.is_medelegated c.csr (Exept.code e)) = true <;>
      simp [Cpu.handleException, h, trapCore]
  · intro i c
    by_cases h : (decide (c.mode ≤ Supervisor) && Csr.is_midelegated c.csr (Interrupt.code i)) = true <;>
      simp only [Cpu.handleInterrupt, h, Bool.not_eq_true] at * <;>
      simp only [h, if_true, Bool.false_eq_true, if_false] <;>
      split_ifs <;> simp [trapCore]

theorem clint_store_error {c : Clint} {addr size v : Nat} {e : Exept}
    (h : (Clint.store c addr size v).1 = Except.error e) : (Clint.store c addr size v).2 = c := by
  unfold Clint.store at h ⊢
  split_ifs at h ⊢ <;> simp_all

theorem plic_store_error {p : Plic} {addr size v : Nat} {e : Exept}
    (h : (Plic.store p addr size v).1 = Except.error e) : (Plic.store p addr size v).2 = p := by
  unfold Plic.store at h ⊢
  split_ifs at h ⊢ <;> simp_all

theorem uart_store_error {u : Uart} {addr size v : Nat} {e : Exept}
    (h : (Uart.store u addr size v).1 = Except.error e) : (Uart.store u addr size v).2 = u := by
  unfold Uart.store at h ⊢
  by_cases h8 : size ≠ 8 <;> by_cases ht : addr - UART_BASE = UART_THR <;> simp_all

theorem dram_store_error {d : Dram} {addr size v : Nat} {e : Exept} {d' : Dram}
    (h : Dram.store d addr size v = some (Except.error e, d')) : d' = d := by
  unfold Dram.store at h
  split_ifs at h <;> simp_all

/-- C10: whenever `Bus::store` returns an exception, the DRAM, CLINT, PLIC
and UART state is exactly as it was before the call: every backend checks its
fault conditions before mutating anything. -/
theorem bus_store_error_frame (b : Bus) (addr size value : Nat) (e : Exept) (b' : Bus)
    (h : Bus.store b addr size value = some (Except.error e, b')) :
    b'.dram = b.dram ∧ b'.clint = b.clint ∧ b'.plic = b.plic ∧ b'.uart = b.uart := by
  unfold Bus.store at h
  split_ifs at h
  · simp only [Option.some.injEq, Prod.mk.injEq] at h
    obtain ⟨h1, h2⟩ := h
    subst h2
    exact ⟨rfl, clint_store_error h1, rfl, rfl⟩
  · simp only [Option.some.injEq, Prod.mk.injEq] at h
    obtain ⟨h1, h2⟩ := h
    subst h2
    exact ⟨rfl, rfl, plic_store_error h1, rfl⟩
  · simp only [Option.some.injEq, Prod.mk.injEq] at h
    obtain ⟨h1, h2⟩ := h
    subst h2
    simp [VirtioBlock.store] at h1
  · rcases hs : b.dram.store addr size value with _ | ⟨r, d2⟩ <;> rw [hs] at h
    · exact absurd h (by simp)
    · simp only [Option.map_some', Option.some.injEq, Prod.mk.injEq] at h
      obtain ⟨h1, h2⟩ := h
      subst h2
      subst h1
      exact ⟨dram_store_error hs, rfl, rfl, rfl⟩
  · simp only [Option.some.injEq, Prod.mk.injEq] at h
    obtain ⟨h1, h2⟩ := h
    subst h2
    exact ⟨rfl, rfl, rfl, uart_store_error h1⟩
  · rcases hs : b.dram.store (addr + DRAM_BASE) size value with _ | ⟨r, d2⟩ <;> rw [hs] at h
    · exact absurd h (by simp)
    · simp only [Option.map_some', Option.some.injEq, Prod.mk.injEq] at h
      obtain ⟨h1, h2⟩ := h
      subst h2
      subst h1
      exact ⟨dram_store_error hs, rfl, rfl, rfl⟩
  · simp only [Option.some.injEq, Prod.mk.injEq] at h
    obtain ⟨h1, h2⟩ := h
    subst h2
    exact ⟨rfl, rfl, rfl, rfl⟩

theorem bus_store_error_frame_witness :
    bus0.dram = bus0.dram ∧ bus0.clint = bus0.clint ∧ bus0.plic = bus0.plic ∧
      bus0.uart = bus0.uart :=
  bus_store_error_frame bus0 0 8 0 (Exept.storeAMOAccessFault 0) bus0 rfl

/-- C5 (amended): with a zero divisor register, DIV, DIVU, DIVW and DIVUW
write all-ones; REM, REMU and REMUW write the dividend register and REMW
writes the sign-extension of the dividend's low 32 bits.  No divide or
remainder instruction raises a trap; all complete normally except REMUW,
which aborts when the divisor register is nonzero but its low 32 bits are
zero. -/
theorem div_rem_zero_divisor (c : Cpu) (inst : Nat) (h0 : c.regs 0 = 0) :
    (opcodeOf inst = 0x33 → funct7Of inst = 0x1 → c.regs (rs2Of inst) = 0 →
      ((funct3Of inst = 0x4 ∨ funct3Of inst = 0x5) → execRd inst c = some 0xffffffffffffffff) ∧
      ((funct3Of inst = 0x6 ∨ funct3Of inst = 0x7) → execRd inst c = some (c.regs (rs1Of inst)))) ∧
    (opcodeOf inst = 0x3b → funct7Of inst = 0x1 → c.regs (rs2Of inst) = 0 →
      ((funct3Of inst = 0x4 ∨ funct3Of inst = 0x5) → execRd inst c = some 0xffffffffffffffff) ∧
      (funct3Of inst = 0x6 → execRd inst c = some (sx32 (c.regs (rs1Of inst)))) ∧
      (funct3Of inst = 0x7 → execRd inst c = some (c.regs (rs1Of inst)))) ∧
    ((opcodeOf inst = 0x33 ∨ opcodeOf inst = 0x3b) → funct7Of inst = 0x1 →
      (funct3Of inst = 0x4 ∨ funct3Of inst = 0x5 ∨ funct3Of inst = 0x6 ∨ funct3Of inst = 0x7) →
      ¬(opcodeOf inst = 0x3b ∧ funct3Of inst = 0x7 ∧ c.regs (rs2Of inst) % 2 ^ 32 = 0 ∧
          c.regs (rs2Of inst) ≠ 0) →
      (Cpu.execute inst c).map (fun p => isOkE p.2) = some true) := by
  have hset : setReg c.regs 0 0 = c.regs := funext (fun x => by unfold setReg; split <;> simp_all)
  refine ⟨?_, ?_, ?_⟩
  · intro ho h7 hz
    constructor
    · rintro (h3 | h3) <;>
        (simp only [execRd, Cpu.execute, ho, h3, h7]
         norm_num [EmuM.bind_apply, modifyS_apply, getS_apply, writeRd_apply, EmuM.pure_apply,
           execOp33, hset, hz, setReg])
    · rintro (h3 | h3) <;>
        (simp only [execRd, Cpu.execute, ho, h3, h7]
         norm_num [EmuM.bind_apply, modifyS_apply, getS_apply, writeRd_apply, EmuM.pure_apply,
           execOp33, hset, hz, setReg])
  · intro ho h7 hz
    refine ⟨?_, ?_, ?_⟩
    · rintro (h3 | h3) <;>
        (simp only [execRd, Cpu.execute, ho, h3, h7]
         norm_num [EmuM.bind_apply, modifyS_apply, getS_apply, writeRd_apply, EmuM.pure_apply,
           execOp3b, hset, hz, setReg, toI32])
    · intro h3
      simp only [execRd, Cpu.execute, ho, h3, h7]
      norm_num [EmuM.bind_apply, modifyS_apply, getS_apply, writeRd_apply, EmuM.pure_apply,
        execOp3b, hset, hz, setReg, toI32]
    · intro h3
      simp only [execRd, Cpu.execute, ho, h3, h7]
      norm_num [EmuM.bind_apply, modifyS_apply, getS_apply, writeRd_apply, EmuM.pure_apply,
        execOp3b, hset, hz, setReg]
  · rintro (ho | ho) h7 h3 hex
    · rcases h3 with h3 | h3 | h3 | h3 <;> by_cases hz2 : c.regs (rs2Of inst) = 0 <;>
        (simp only [Cpu.execute, ho, h3, h7]
         norm_num [EmuM.bind_apply, modifyS_apply, getS_apply, writeRd_apply, EmuM.pure_apply,
           execOp33, hset, setReg, isOkE, hz2])
    · rcases h3 with h3 | h3 | h3 | h3
      · by_cases hz2 : toI32 (c.regs (rs2Of inst)) = 0 <;>
          (simp only [Cpu.execute, ho, h3, h7]
           norm_num [EmuM.bind_apply, modifyS_apply, getS_apply, writeRd_apply, EmuM.pure_apply,
             execOp3b, hset, setReg, isOkE, hz2])
      · by_cases hz2 : c.regs (rs2Of inst) = 0 <;>
          (simp only [Cpu.execute, ho, h3, h7]
           norm_num [EmuM.bind_apply, modifyS_apply, getS_apply, writeRd_apply, EmuM.pure_apply,
             execOp3b, hset, setReg, isOkE, hz2])
      · by_cases hz2 : toI32 (c.regs (rs2Of inst)) = 0 <;>
          (simp only [Cpu.execute, ho, h3, h7]
           norm_num [EmuM.bind_apply, modifyS_apply, getS_apply, writeRd_apply, EmuM.pure_apply,
             execOp3b, hset, setReg, isOkE, hz2])
      · -- remuw: the excluded panic case
        simp only [ho, h3, true_and, not_and, ne_eq, not_not] at hex
        by_cases hz2 : c.regs (rs2Of inst) = 0
        · simp only [Cpu.execute, ho, h3, h7]
          norm_num [EmuM.bind_apply, modifyS_apply, getS_apply, writeRd_apply, EmuM.pure_apply,
            execOp3b, hset, setReg, isOkE, hz2]
        · have hlow : ¬ (c.regs (rs2Of inst) % 4294967296 = 0) := fun hl =>
            hz2 (hex (by rw [show (2 : Nat) ^ 32 = 4294967296 by norm_num]; exact hl))
          simp only [Cpu.execute, ho, h3, h7]
          norm_num [EmuM.bind_apply, modifyS_apply, getS_apply, writeRd_apply, EmuM.pure_apply,
            execOp3b, hset, setReg, isOkE, hz2, hlow]

theorem div_rem_zero_divisor_witness :
    execRd 0x0220C1B3 cpuDivZ = some 0xffffffffffffffff ∧
    (Cpu.execute 0x0220C1B3 cpuDivZ).map (fun p => isOkE p.2) = some true :=
  ⟨((div_rem_zero_divisor cpuDivZ 0x0220C1B3 (by decide)).1 (by decide) (by decide) (by decide)).1
      (Or.inl (by decide)),
    (div_rem_zero_divisor cpuDivZ 0x0220C1B3 (by decide)).2.2 (Or.inl (by decide)) (by decide)
      (Or.inl (by decide)) (by decide)⟩
